import Mathlib

/-!
Verification of the obligation/strategy engine of `formal_proof_system.py`
(class `FormalProofSystem` and the dataclass `ProofObligation`).

The engine is embedded shallowly: symbolic expressions are an opaque type
`E`, the external symbolic computation capability (sympy) is a record of
operations `Oracle E`, and every operation the Python code performs inside
a `try` block is fallible (`Except String _`).  Each of the six strategy
methods becomes a total Lean function from its inputs and the obligation to
the pair (returned boolean, mutated obligation); a Python exception caught
by the method's `except` clause corresponds to an `Except.error` value
reached along the execution path.
-/

namespace BlackRoad

/-- Status values of a proof obligation, one per member of the source enum
`ProofStatus`.  `AXM` models the source's fourth member (the axiom marker,
assigned only to axiom entries, never produced by a strategy). -/
inductive ProofStatus where
  | PROVEN
  | REFUTED
  | UNKNOWN
  | AXM
  deriving DecidableEq, Repr

variable {E : Type}

/-- The dataclass `ProofObligation`: a named claim with hypothesis,
conclusion, chosen method, status and derivation log.  The field defaults
mirror the Python defaults (`status = UNKNOWN`, `proof_steps = []` after
`__post_init__`). -/
structure ProofObligation (E : Type) where
  name : String
  hypothesis : E
  conclusion : E
  proof_method : String
  status : ProofStatus := ProofStatus.UNKNOWN
  proof_steps : List String := []

/-- Constructing an obligation with the four positional arguments of the
Python dataclass constructor, leaving status and the step log at their
defaults. -/
def mkProofObligation (name : String) (hypothesis conclusion : E)
    (proof_method : String) : ProofObligation E :=
  { name := name
    hypothesis := hypothesis
    conclusion := conclusion
    proof_method := proof_method }

/-- The external symbolic computation capability consumed by the engine
(sympy in the source).  Every operation invoked inside a `try` block may
fail; `isZero` models the pure structural comparison `expr == 0` (and
`expr == S.Zero`), `toStr` models Python string interpolation of an
expression into an f-string. -/
structure Oracle (E : Type) where
  sub : E → E → Except String E
  simplify : E → Except String E
  expand : E → Except String E
  factor : E → Except String E
  limit : E → E → E → Except String E
  diff : E → E → Except String E
  integrate : E → E → Except String E
  integrate_def : E → E → E → E → Except String E
  isZero : E → Bool
  is_constant : E → Except String Bool
  toStr : E → String

/-- `prove_by_symbolic_simplification` (lines 66-100): compute
`D = simplify(hypothesis - conclusion)`; `Proven` if `D`, `expand(D)` or
`factor(D)` is zero, in that order; otherwise `Refuted` with the residual
logged; any exception is caught and yields `Unknown` with the error
logged. -/
def prove_by_symbolic_simplification (O : Oracle E) (ob : ProofObligation E) :
    Bool × ProofObligation E :=
  match O.sub ob.hypothesis ob.conclusion >>= O.simplify with
  | .error e =>
      (false, { ob with
                status := ProofStatus.UNKNOWN
                proof_steps := ob.proof_steps ++ ["Error in simplification: " ++ e] })
  | .ok d =>
    if O.isZero d then
      (true, { ob with
               status := ProofStatus.PROVEN
               proof_steps := ob.proof_steps ++
                 ["Simplified difference to: " ++ O.toStr d,
                  "Since " ++ O.toStr d ++ " = 0, equality holds"] })
    else
      match O.expand d with
      | .error e =>
          (false, { ob with
                    status := ProofStatus.UNKNOWN
                    proof_steps := ob.proof_steps ++
                      ["Error in simplification: " ++ e] })
      | .ok ed =>
        if O.isZero ed then
          (true, { ob with
                   status := ProofStatus.PROVEN
                   proof_steps := ob.proof_steps ++ ["Expanded to: " ++ O.toStr ed] })
        else
          match O.factor d with
          | .error e =>
              (false, { ob with
                        status := ProofStatus.UNKNOWN
                        proof_steps := ob.proof_steps ++
                          ["Error in simplification: " ++ e] })
          | .ok fd =>
            if O.isZero fd then
              (true, { ob with
                       status := ProofStatus.PROVEN
                       proof_steps := ob.proof_steps ++
                         ["Factored to: " ++ O.toStr fd] })
            else
              (false, { ob with
                        status := ProofStatus.REFUTED
                        proof_steps := ob.proof_steps ++
                          ["Cannot simplify to zero: " ++ O.toStr d] })

/-- `prove_by_mathematical_induction` (lines 102-134): evaluate the
caller-supplied `base_case` probe, then (only if it returned true) the
`inductive_step` probe; a probe exception is caught and yields `Unknown`
(with any log entries appended before the exception preserved, as the
Python code mutates the obligation in place). -/
def prove_by_mathematical_induction (base_case inductive_step : Except String Bool)
    (ob : ProofObligation E) : Bool × ProofObligation E :=
  match base_case with
  | .error e =>
      (false, { ob with
                status := ProofStatus.UNKNOWN
                proof_steps := ob.proof_steps ++ ["Induction error: " ++ e] })
  | .ok b =>
    if b then
      let ob1 : ProofObligation E :=
        { ob with proof_steps := ob.proof_steps ++ ["Base case: ✓ PROVEN"] }
      match inductive_step with
      | .error e =>
          (false, { ob1 with
                    status := ProofStatus.UNKNOWN
                    proof_steps := ob1.proof_steps ++ ["Induction error: " ++ e] })
      | .ok s =>
        if s then
          (true, { ob1 with
                   status := ProofStatus.PROVEN
                   proof_steps := ob1.proof_steps ++
                     ["Inductive step: ✓ PROVEN",
                      "By mathematical induction: ✓ PROVEN"] })
        else
          (false, { ob1 with
                    status := ProofStatus.REFUTED
                    proof_steps := ob1.proof_steps ++ ["Inductive step FAILED"] })
    else
      (false, { ob with
                status := ProofStatus.REFUTED
                proof_steps := ob.proof_steps ++ ["Base case FAILED"] })

/-- `prove_by_contradiction` (lines 136-156): invoke the caller-supplied
predicate on the assumption; true yields `Proven` with three log entries,
false yields `Unknown` with no log entry (the source appends nothing on
that path), an exception yields `Unknown` with the error logged. -/
def prove_by_contradiction (assum : E) (leads_to_contradiction : E → Except String Bool)
    (O : Oracle E) (ob : ProofObligation E) : Bool × ProofObligation E :=
  match leads_to_contradiction assum with
  | .error e =>
      (false, { ob with
                status := ProofStatus.UNKNOWN
                proof_steps := ob.proof_steps ++ ["Error: " ++ e] })
  | .ok c =>
    if c then
      (true, { ob with
               status := ProofStatus.PROVEN
               proof_steps := ob.proof_steps ++
                 ["Assumed: " ++ O.toStr assum,
                  "Derived contradiction",
                  "Therefore negation must be false"] })
    else
      (false, { ob with status := ProofStatus.UNKNOWN })

/-- `prove_limit` (lines 158-179): compute the limit, compare with the
expected value by exact zero-test of the simplified difference; `Proven`
or `Refuted` accordingly, `Unknown` with the error logged on exception. -/
def prove_limit (O : Oracle E) (expression var limit_point expected_value : E)
    (ob : ProofObligation E) : Bool × ProofObligation E :=
  match O.limit expression var limit_point with
  | .error e =>
      (false, { ob with
                status := ProofStatus.UNKNOWN
                proof_steps := ob.proof_steps ++ ["Limit computation error: " ++ e] })
  | .ok L =>
    match O.sub L expected_value >>= O.simplify with
    | .error e =>
        (false, { ob with
                  status := ProofStatus.UNKNOWN
                  proof_steps := ob.proof_steps ++ ["Limit computation error: " ++ e] })
    | .ok d =>
      if O.isZero d then
        (true, { ob with
                 status := ProofStatus.PROVEN
                 proof_steps := ob.proof_steps ++
                   ["lim " ++ O.toStr var ++ "→" ++ O.toStr limit_point ++ " " ++
                      O.toStr expression ++ " = " ++ O.toStr L,
                    "Expected: " ++ O.toStr expected_value,
                    "Match: ✓"] })
      else
        (false, { ob with
                  status := ProofStatus.REFUTED
                  proof_steps := ob.proof_steps ++
                    ["Limit is " ++ O.toStr L ++ ", expected " ++
                       O.toStr expected_value] })

/-- `prove_derivative` (lines 181-200): differentiate, compare with the
expected derivative by exact zero-test; the `Refuted` branch and the
exception branch append no log entry (the source's asymmetry). -/
def prove_derivative (O : Oracle E) (function var expected_derivative : E)
    (ob : ProofObligation E) : Bool × ProofObligation E :=
  match O.diff function var with
  | .error _ => (false, { ob with status := ProofStatus.UNKNOWN })
  | .ok dv =>
    match O.sub dv expected_derivative >>= O.simplify with
    | .error _ => (false, { ob with status := ProofStatus.UNKNOWN })
    | .ok d =>
      if O.isZero d then
        (true, { ob with
                 status := ProofStatus.PROVEN
                 proof_steps := ob.proof_steps ++
                   ["d/d" ++ O.toStr var ++ " (" ++ O.toStr function ++ ") = " ++
                      O.toStr dv,
                    "Expected: " ++ O.toStr expected_derivative,
                    "Match: ✓"] })
      else
        (false, { ob with status := ProofStatus.REFUTED })

/-- `prove_integral` (lines 202-228): integrate (indefinite when `bounds`
is `none`, definite over the pair otherwise), compare with the expected
value; accepted when the simplified difference is zero or — only in the
indefinite case, by Python short-circuit of `or` — when `is_constant`
holds of it; the `Refuted` branch and the exception branch append no log
entry. -/
def prove_integral (O : Oracle E) (integrand var : E) (bounds : Option (E × E))
    (expected_value : E) (ob : ProofObligation E) : Bool × ProofObligation E :=
  match (match bounds with
         | none => O.integrate integrand var
         | some (lo, hi) => O.integrate_def integrand var lo hi) with
  | .error _ => (false, { ob with status := ProofStatus.UNKNOWN })
  | .ok ci =>
    match O.sub ci expected_value >>= O.simplify with
    | .error _ => (false, { ob with status := ProofStatus.UNKNOWN })
    | .ok d =>
      if O.isZero d then
        (true, { ob with
                 status := ProofStatus.PROVEN
                 proof_steps := ob.proof_steps ++
                   ["∫ " ++ O.toStr integrand ++ " d" ++ O.toStr var ++ " = " ++
                      O.toStr ci,
                    "Expected: " ++ O.toStr expected_value] })
      else
        match bounds with
        | none =>
          match O.is_constant d with
          | .error _ => (false, { ob with status := ProofStatus.UNKNOWN })
          | .ok c =>
            if c then
              (true, { ob with
                       status := ProofStatus.PROVEN
                       proof_steps := ob.proof_steps ++
                         ["∫ " ++ O.toStr integrand ++ " d" ++ O.toStr var ++ " = " ++
                            O.toStr ci,
                          "Expected: " ++ O.toStr expected_value] })
            else
              (false, { ob with status := ProofStatus.REFUTED })
        | some _ => (false, { ob with status := ProofStatus.REFUTED })

/-! ### Concrete test fixtures

A small numeric instantiation of the oracle (expressions are integers,
subtraction is exact, every normalization is the identity) and an oracle
whose every fallible operation fails, used to evaluate the theorems below
on concrete inputs. -/

/-- A concrete oracle over integer expressions where every operation
succeeds and normalization is the identity. -/
def numOracle : Oracle Int where
  sub := fun a b => Except.ok (a - b)
  simplify := fun a => Except.ok a
  expand := fun a => Except.ok a
  factor := fun a => Except.ok a
  limit := fun e _ _ => Except.ok e
  diff := fun e _ => Except.ok e
  integrate := fun e _ => Except.ok e
  integrate_def := fun e _ _ _ => Except.ok e
  isZero := fun a => a == 0
  is_constant := fun _ => Except.ok true
  toStr := fun a => toString a

/-- A concrete oracle whose every fallible operation raises. -/
def errOracle : Oracle Int where
  sub := fun _ _ => Except.error "boom"
  simplify := fun _ => Except.error "boom"
  expand := fun _ => Except.error "boom"
  factor := fun _ => Except.error "boom"
  limit := fun _ _ _ => Except.error "boom"
  diff := fun _ _ => Except.error "boom"
  integrate := fun _ _ => Except.error "boom"
  integrate_def := fun _ _ _ _ => Except.error "boom"
  isZero := fun a => a == 0
  is_constant := fun _ => Except.error "boom"
  toStr := fun a => toString a

/-- A fresh obligation whose hypothesis 3 and conclusion 4 differ. -/
def ob34 : ProofObligation Int := mkProofObligation "three-four" 3 4 "simplification"

/-- A fresh obligation whose hypothesis and conclusion agree. -/
def ob55 : ProofObligation Int := mkProofObligation "five-five" 5 5 "simplification"

/-- A status is resolved when it is one of the three values a strategy can
assign (never the axiom marker). -/
def isResolved (s : ProofStatus) : Prop :=
  s = ProofStatus.PROVEN ∨ s = ProofStatus.REFUTED ∨ s = ProofStatus.UNKNOWN

/-! ### When does a strategy's `try` block raise?

For each strategy, a decidable replay of its execution path reporting
whether an exception is reached (and hence caught by its `except`
clause).  Each replays exactly the fallible calls of the corresponding
method, in the order the method makes them. -/

/-- The `try` block of `prove_by_symbolic_simplification` raises. -/
def simplification_raised (O : Oracle E) (ob : ProofObligation E) : Bool :=
  match O.sub ob.hypothesis ob.conclusion >>= O.simplify with
  | .error _ => true
  | .ok d =>
    if O.isZero d then false
    else
      match O.expand d with
      | .error _ => true
      | .ok ed =>
        if O.isZero ed then false
        else
          match O.factor d with
          | .error _ => true
          | .ok _ => false

/-- The `try` block of `prove_by_mathematical_induction` raises (one of
the probes that is actually invoked raises). -/
def induction_raised (base_case inductive_step : Except String Bool) : Bool :=
  match base_case with
  | .error _ => true
  | .ok b =>
    if b then
      match inductive_step with
      | .error _ => true
      | .ok _ => false
    else false

/-- The `try` block of `prove_by_contradiction` raises. -/
def contradiction_raised (assum : E) (pred : E → Except String Bool) : Bool :=
  match pred assum with
  | .error _ => true
  | .ok _ => false

/-- The `try` block of `prove_limit` raises. -/
def limit_raised (O : Oracle E) (expression var limit_point expected_value : E) : Bool :=
  match O.limit expression var limit_point with
  | .error _ => true
  | .ok L =>
    match O.sub L expected_value >>= O.simplify with
    | .error _ => true
    | .ok _ => false

/-- The `try` block of `prove_derivative` raises. -/
def derivative_raised (O : Oracle E) (function var expected_derivative : E) : Bool :=
  match O.diff function var with
  | .error _ => true
  | .ok dv =>
    match O.sub dv expected_derivative >>= O.simplify with
    | .error _ => true
    | .ok _ => false

/-- The `try` block of `prove_integral` raises. -/
def integral_raised (O : Oracle E) (integrand var : E) (bounds : Option (E × E))
    (expected_value : E) : Bool :=
  match (match bounds with
         | none => O.integrate integrand var
         | some (lo, hi) => O.integrate_def integrand var lo hi) with
  | .error _ => true
  | .ok ci =>
    match O.sub ci expected_value >>= O.simplify with
    | .error _ => true
    | .ok d =>
      if O.isZero d then false
      else
        match bounds with
        | none =>
          match O.is_constant d with
          | .error _ => true
          | .ok _ => false
        | some _ => false

/-! ### Theorems -/

/-- C9: a newly constructed `ProofObligation(name, hypothesis, conclusion,
proof_method)` has status `Unknown` and an empty `proof_steps` sequence. -/
theorem new_obligation_unknown_and_empty (name : String) (hypothesis conclusion : E)
    (proof_method : String) :
    (mkProofObligation name hypothesis conclusion proof_method).status =
        ProofStatus.UNKNOWN ∧
      (mkProofObligation name hypothesis conclusion proof_method).proof_steps = [] :=
  ⟨rfl, rfl⟩

/-- C7: no call to any of the six verification entry points, on any input,
ever leaves the obligation with the axiom-marker status: after every
strategy call the status is one of Proven, Refuted, Unknown. -/
theorem strategy_status_never_axm (O : Oracle E) (ob : ProofObligation E)
    (base_case inductive_step : Except String Bool)
    (assum : E) (pred : E → Except String Bool)
    (expression var limit_point expected_value : E)
    (function expected_derivative integrand : E) (bounds : Option (E × E))
    (iexpected : E) :
    isResolved (prove_by_symbolic_simplification O ob).2.status ∧
      isResolved (prove_by_mathematical_induction base_case inductive_step ob).2.status ∧
      isResolved (prove_by_contradiction assum pred O ob).2.status ∧
      isResolved (prove_limit O expression var limit_point expected_value ob).2.status ∧
      isResolved (prove_derivative O function var expected_derivative ob).2.status ∧
      isResolved (prove_integral O integrand var bounds iexpected ob).2.status := by
  refine ⟨?_, ?_, ?_, ?_, ?_, ?_⟩
  · unfold isResolved prove_by_symbolic_simplification
    (repeat' split) <;> simp
  · unfold isResolved prove_by_mathematical_induction
    (repeat' split) <;> simp
  · unfold isResolved prove_by_contradiction
    (repeat' split) <;> simp
  · unfold isResolved prove_limit
    (repeat' split) <;> simp
  · unfold isResolved prove_derivative
    (repeat' split) <;> simp
  · unfold isResolved prove_integral
    (repeat' split) <;> simp

/-- C10: each of the six verification entry points returns true exactly
when the obligation's status after the call is Proven; on a Refuted or
Unknown outcome it returns false. -/
theorem returns_true_iff_proven (O : Oracle E) (ob : ProofObligation E)
    (base_case inductive_step : Except String Bool)
    (assum : E) (pred : E → Except String Bool)
    (expression var limit_point expected_value : E)
    (function expected_derivative integrand : E) (bounds : Option (E × E))
    (iexpected : E) :
    ((prove_by_symbolic_simplification O ob).1 = true ↔
        (prove_by_symbolic_simplification O ob).2.status = ProofStatus.PROVEN) ∧
      ((prove_by_mathematical_induction base_case inductive_step ob).1 = true ↔
        (prove_by_mathematical_induction base_case inductive_step ob).2.status =
          ProofStatus.PROVEN) ∧
      ((prove_by_contradiction assum pred O ob).1 = true ↔
        (prove_by_contradiction assum pred O ob).2.status = ProofStatus.PROVEN) ∧
      ((prove_limit O expression var limit_point expected_value ob).1 = true ↔
        (prove_limit O expression var limit_point expected_value ob).2.status =
          ProofStatus.PROVEN) ∧
      ((prove_derivative O function var expected_derivative ob).1 = true ↔
        (prove_derivative O function var expected_derivative ob).2.status =
          ProofStatus.PROVEN) ∧
      ((prove_integral O integrand var bounds iexpected ob).1 = true ↔
        (prove_integral O integrand var bounds iexpected ob).2.status =
          ProofStatus.PROVEN) := by
  refine ⟨?_, ?_, ?_, ?_, ?_, ?_⟩
  · unfold prove_by_symbolic_simplification
    (repeat' split) <;> simp
  · unfold prove_by_mathematical_induction
    (repeat' split) <;> simp
  · unfold prove_by_contradiction
    (repeat' split) <;> simp
  · unfold prove_limit
    (repeat' split) <;> simp
  · unfold prove_derivative
    (repeat' split) <;> simp
  · unfold prove_integral
    (repeat' split) <;> simp

/-- C2: with `D = simplify(hypothesis - conclusion)` computed successfully,
`prove_by_symbolic_simplification` is Proven when `D` is zero, else when
`expand(D)` is zero, else when `factor(D)` is zero, the stages tried in
that order; when none of the three is zero the status is Refuted and the
nonzero residual is appended to the log. -/
theorem simplification_three_stage (O : Oracle E) (ob : ProofObligation E) (d : E)
    (hd : O.sub ob.hypothesis ob.conclusion >>= O.simplify = Except.ok d) :
    (O.isZero d = true →
        (prove_by_symbolic_simplification O ob).2.status = ProofStatus.PROVEN) ∧
      (∀ ed, O.isZero d = false → O.expand d = Except.ok ed → O.isZero ed = true →
        (prove_by_symbolic_simplification O ob).2.status = ProofStatus.PROVEN) ∧
      (∀ ed fd, O.isZero d = false → O.expand d = Except.ok ed → O.isZero ed = false →
        O.factor d = Except.ok fd → O.isZero fd = true →
        (prove_by_symbolic_simplification O ob).2.status = ProofStatus.PROVEN) ∧
      (∀ ed fd, O.isZero d = false → O.expand d = Except.ok ed → O.isZero ed = false →
        O.factor d = Except.ok fd → O.isZero fd = false →
        (prove_by_symbolic_simplification O ob).2.status = ProofStatus.REFUTED ∧
          (prove_by_symbolic_simplification O ob).2.proof_steps =
            ob.proof_steps ++ ["Cannot simplify to zero: " ++ O.toStr d]) := by
  refine ⟨?_, ?_, ?_, ?_⟩
  · intro hz
    unfold prove_by_symbolic_simplification
    rw [hd]
    simp [hz]
  · intro ed hz hed hze
    unfold prove_by_symbolic_simplification
    rw [hd]
    simp [hz, hed, hze]
  · intro ed fd hz hed hze hfd hzf
    unfold prove_by_symbolic_simplification
    rw [hd]
    simp [hz, hed, hze, hfd, hzf]
  · intro ed fd hz hed hze hfd hzf
    unfold prove_by_symbolic_simplification
    rw [hd]
    simp [hz, hed, hze, hfd, hzf]

/-- C2 witness: on hypothesis 3 and conclusion 4 over the numeric oracle
the residual -1 survives all three stages and the obligation is Refuted
with the residual logged. -/
theorem simplification_three_stage_witness :
    (prove_by_symbolic_simplification numOracle ob34).2.status = ProofStatus.REFUTED ∧
      (prove_by_symbolic_simplification numOracle ob34).2.proof_steps =
        ob34.proof_steps ++ ["Cannot simplify to zero: " ++ numOracle.toStr (-1)] :=
  (simplification_three_stage numOracle ob34 (-1) (by rfl)).2.2.2 (-1) (-1)
    (by rfl) (by rfl) (by rfl) (by rfl) (by rfl)

/-- C5: `prove_by_contradiction` is Proven when the predicate returns
true, Unknown when it returns false or raises, and its status is never
Refuted. -/
theorem contradiction_proven_or_unknown (O : Oracle E) (assum : E)
    (pred : E → Except String Bool) (ob : ProofObligation E) :
    (pred assum = Except.ok true →
        (prove_by_contradiction assum pred O ob).2.status = ProofStatus.PROVEN) ∧
      (pred assum = Except.ok false →
        (prove_by_contradiction assum pred O ob).2.status = ProofStatus.UNKNOWN) ∧
      (∀ e, pred assum = Except.error e →
        (prove_by_contradiction assum pred O ob).2.status = ProofStatus.UNKNOWN) ∧
      ¬(prove_by_contradiction assum pred O ob).2.status = ProofStatus.REFUTED := by
  refine ⟨?_, ?_, ?_, ?_⟩
  · intro h
    unfold prove_by_contradiction
    rw [h]
    simp
  · intro h
    unfold prove_by_contradiction
    rw [h]
    simp
  · intro e h
    unfold prove_by_contradiction
    rw [h]
  · unfold prove_by_contradiction
    (repeat' split) <;> simp

/-- C5 witness: a predicate that always returns false leaves the
obligation Unknown. -/
theorem contradiction_proven_or_unknown_witness :
    (prove_by_contradiction (0 : Int) (fun _ => Except.ok false) numOracle ob34).2.status =
      ProofStatus.UNKNOWN :=
  (contradiction_proven_or_unknown numOracle 0 (fun _ => Except.ok false) ob34).2.1 rfl

/-- C6: `prove_by_mathematical_induction` refutes with "Base case FAILED"
when the base probe returns false — and then the result does not depend on
the inductive-step probe at all, i.e. the step probe is never invoked;
refutes with "Inductive step FAILED" (never Proven) when the base probe
returns true and the step probe false; and is Proven exactly when both
probes return true. -/
theorem induction_protocol (base_case inductive_step : Except String Bool)
    (ob : ProofObligation E) :
    (base_case = Except.ok false →
        (prove_by_mathematical_induction base_case inductive_step ob).2.status =
            ProofStatus.REFUTED ∧
          (prove_by_mathematical_induction base_case inductive_step ob).2.proof_steps =
            ob.proof_steps ++ ["Base case FAILED"] ∧
          ∀ other, prove_by_mathematical_induction base_case other ob =
            prove_by_mathematical_induction base_case inductive_step ob) ∧
      (base_case = Except.ok true → inductive_step = Except.ok false →
        (prove_by_mathematical_induction base_case inductive_step ob).2.status =
            ProofStatus.REFUTED ∧
          ¬(prove_by_mathematical_induction base_case inductive_step ob).2.status =
            ProofStatus.PROVEN ∧
          (prove_by_mathematical_induction base_case inductive_step ob).2.proof_steps =
            ob.proof_steps ++ ["Base case: ✓ PROVEN", "Inductive step FAILED"]) ∧
      (base_case = Except.ok true → inductive_step = Except.ok true →
        (prove_by_mathematical_induction base_case inductive_step ob).2.status =
          ProofStatus.PROVEN) := by
  refine ⟨?_, ?_, ?_⟩
  · intro hb
    unfold prove_by_mathematical_induction
    rw [hb]
    simp
  · intro hb hs
    unfold prove_by_mathematical_induction
    rw [hb, hs]
    simp
  · intro hb hs
    unfold prove_by_mathematical_induction
    rw [hb, hs]
    simp

/-- C6 witness: base probe true and step probe false yields Refuted with
the "Inductive step FAILED" entry, and both probes true yields Proven. -/
theorem induction_protocol_witness :
    ((prove_by_mathematical_induction (Except.ok true) (Except.ok false) ob34).2.status =
        ProofStatus.REFUTED ∧
      (prove_by_mathematical_induction (Except.ok true) (Except.ok false) ob34).2.proof_steps =
        ob34.proof_steps ++ ["Base case: ✓ PROVEN", "Inductive step FAILED"]) ∧
      (prove_by_mathematical_induction (Except.ok true) (Except.ok true) ob34).2.status =
        ProofStatus.PROVEN :=
  ⟨⟨((induction_protocol (Except.ok true) (Except.ok false) ob34).2.1 rfl rfl).1,
    ((induction_protocol (Except.ok true) (Except.ok false) ob34).2.1 rfl rfl).2.2⟩,
    (induction_protocol (Except.ok true) (Except.ok true) ob34).2.2 rfl rfl⟩

/-- C1: each of the six verification entry points is a total function (its
Lean embedding returns a boolean/obligation pair on every input), and
whenever an exception is reached inside the call — an Oracle call or a
caller-supplied probe raising — the exception is caught at the strategy
boundary, the call returns false, and the obligation's final status is
Unknown. -/
theorem strategies_error_to_unknown (O : Oracle E) (ob : ProofObligation E)
    (base_case inductive_step : Except String Bool)
    (assum : E) (pred : E → Except String Bool)
    (expression var limit_point expected_value : E)
    (function expected_derivative integrand : E) (bounds : Option (E × E))
    (iexpected : E) :
    (simplification_raised O ob = true →
        (prove_by_symbolic_simplification O ob).1 = false ∧
          (prove_by_symbolic_simplification O ob).2.status = ProofStatus.UNKNOWN) ∧
      (induction_raised base_case inductive_step = true →
        (prove_by_mathematical_induction base_case inductive_step ob).1 = false ∧
          (prove_by_mathematical_induction base_case inductive_step ob).2.status =
            ProofStatus.UNKNOWN) ∧
      (contradiction_raised assum pred = true →
        (prove_by_contradiction assum pred O ob).1 = false ∧
          (prove_by_contradiction assum pred O ob).2.status = ProofStatus.UNKNOWN) ∧
      (limit_raised O expression var limit_point expected_value = true →
        (prove_limit O expression var limit_point expected_value ob).1 = false ∧
          (prove_limit O expression var limit_point expected_value ob).2.status =
            ProofStatus.UNKNOWN) ∧
      (derivative_raised O function var expected_derivative = true →
        (prove_derivative O function var expected_derivative ob).1 = false ∧
          (prove_derivative O function var expected_derivative ob).2.status =
            ProofStatus.UNKNOWN) ∧
      (integral_raised O integrand var bounds iexpected = true →
        (prove_integral O integrand var bounds iexpected ob).1 = false ∧
          (prove_integral O integrand var bounds iexpected ob).2.status =
            ProofStatus.UNKNOWN) := by
  refine ⟨?_, ?_, ?_, ?_, ?_, ?_⟩
  · intro h
    unfold simplification_raised at h
    unfold prove_by_symbolic_simplification
    (repeat' split) <;> simp_all
  · intro h
    unfold induction_raised at h
    unfold prove_by_mathematical_induction
    (repeat' split) <;> simp_all
  · intro h
    unfold contradiction_raised at h
    unfold prove_by_contradiction
    (repeat' split) <;> simp_all
  · intro h
    unfold limit_raised at h
    unfold prove_limit
    (repeat' split) <;> simp_all
  · intro h
    unfold derivative_raised at h
    unfold prove_derivative
    (repeat' split) <;> simp_all
  · intro h
    unfold integral_raised at h
    unfold prove_integral
    (repeat' split) <;> simp_all

/-- C1 witness: with an oracle whose every operation raises (and probes
that raise), each of the six entry points returns false and leaves the
status Unknown. -/
theorem strategies_error_to_unknown_witness :
    (prove_by_symbolic_simplification errOracle ob34).2.status = ProofStatus.UNKNOWN ∧
      (prove_by_mathematical_induction (Except.error "bad") (Except.error "bad")
          ob34).2.status = ProofStatus.UNKNOWN ∧
      (prove_by_contradiction (0 : Int) (fun _ => Except.error "bad") errOracle
          ob34).2.status = ProofStatus.UNKNOWN ∧
      (prove_limit errOracle 1 2 3 4 ob34).2.status = ProofStatus.UNKNOWN ∧
      (prove_derivative errOracle 1 2 3 ob34).2.status = ProofStatus.UNKNOWN ∧
      (prove_integral errOracle 1 2 none 3 ob34).2.status = ProofStatus.UNKNOWN := by
  have h := strategies_error_to_unknown errOracle ob34 (Except.error "bad")
    (Except.error "bad") 0 (fun _ => Except.error "bad") 1 2 3 4 1 3 1 none 3
  exact ⟨(h.1 (by rfl)).2, (h.2.1 (by rfl)).2, (h.2.2.1 (by rfl)).2,
    (h.2.2.2.1 (by rfl)).2, (h.2.2.2.2.1 (by rfl)).2, (h.2.2.2.2.2 (by rfl)).2⟩

/-- C4: with the integral computed (indefinite when bounds are absent,
definite over the interval otherwise) and the residual
`D = simplify(computed - expected_value)` obtained successfully,
`prove_integral` is Proven when `D` is zero; when `D` is nonzero and
bounds are absent it is Proven exactly when the constancy test accepts
`D`; when `D` is nonzero and bounds are present it is Refuted. -/
theorem integral_protocol (O : Oracle E) (integrand var : E) (bounds : Option (E × E))
    (expected_value : E) (ob : ProofObligation E) (ci d : E)
    (hci : (match bounds with
            | none => O.integrate integrand var
            | some (lo, hi) => O.integrate_def integrand var lo hi) = Except.ok ci)
    (hd : O.sub ci expected_value >>= O.simplify = Except.ok d) :
    (O.isZero d = true →
        (prove_integral O integrand var bounds expected_value ob).2.status =
          ProofStatus.PROVEN) ∧
      (O.isZero d = false → bounds = none → ∀ c, O.is_constant d = Except.ok c →
        (prove_integral O integrand var bounds expected_value ob).2.status =
          (if c then ProofStatus.PROVEN else ProofStatus.REFUTED)) ∧
      (O.isZero d = false → ∀ lo hi, bounds = some (lo, hi) →
        (prove_integral O integrand var bounds expected_value ob).2.status =
          ProofStatus.REFUTED) := by
  refine ⟨?_, ?_, ?_⟩
  · intro hz
    unfold prove_integral
    rw [hci]
    simp [hd, hz]
  · intro hz hb c hc
    subst hb
    have hci2 : O.integrate integrand var = Except.ok ci := hci
    unfold prove_integral
    cases c <;> simp [hci2, hd, hz, hc]
  · intro hz lo hi hb
    subst hb
    have hci2 : O.integrate_def integrand var lo hi = Except.ok ci := hci
    unfold prove_integral
    simp [hci2, hd, hz]

/-- C4 witness: an indefinite integral matching the expected value exactly
is Proven, and a definite integral with a nonzero residual is Refuted. -/
theorem integral_protocol_witness :
    (prove_integral numOracle 2 0 none 2 ob34).2.status = ProofStatus.PROVEN ∧
      (prove_integral numOracle 2 0 (some (0, 1)) 3 ob34).2.status =
        ProofStatus.REFUTED :=
  ⟨(integral_protocol numOracle 2 0 none 2 ob34 2 0 (by rfl) (by rfl)).1 (by rfl),
    (integral_protocol numOracle 2 0 (some (0, 1)) 3 ob34 2 (-1) (by rfl)
        (by rfl)).2.2 (by rfl) 0 1 rfl⟩

/-- C3 counterexample: a call to `prove_by_contradiction` whose predicate
returns false appends no entry at all to the obligation's `proof_steps`
(the source's false branch sets the status and returns without logging),
refuting the claim that every entry point appends at least one entry on
every outcome. -/
theorem contradiction_false_appends_nothing :
    (prove_by_contradiction (0 : Int) (fun _ => Except.ok false) numOracle
        ob34).2.proof_steps = ob34.proof_steps := by
  rfl

/-- C3 amended: `prove_by_symbolic_simplification`,
`prove_by_mathematical_induction` and `prove_limit` append at least one
log entry on every input and outcome; `prove_by_contradiction` appends at
least one entry unless the predicate returns false, in which case it
appends none; `prove_derivative` and `prove_integral` append entries
exactly when the outcome is Proven and append none otherwise. -/
theorem strategy_logging (O : Oracle E) (ob : ProofObligation E)
    (base_case inductive_step : Except String Bool)
    (assum : E) (pred : E → Except String Bool)
    (expression var limit_point expected_value : E)
    (function expected_derivative integrand : E) (bounds : Option (E × E))
    (iexpected : E) :
    (ob.proof_steps.length <
        (prove_by_symbolic_simplification O ob).2.proof_steps.length) ∧
      (ob.proof_steps.length <
        (prove_by_mathematical_induction base_case inductive_step ob).2.proof_steps.length) ∧
      (ob.proof_steps.length <
        (prove_limit O expression var limit_point expected_value ob).2.proof_steps.length) ∧
      (pred assum = Except.ok false →
        (prove_by_contradiction assum pred O ob).2.proof_steps = ob.proof_steps) ∧
      (¬pred assum = Except.ok false →
        ob.proof_steps.length <
          (prove_by_contradiction assum pred O ob).2.proof_steps.length) ∧
      ((prove_derivative O function var expected_derivative ob).2.status =
          ProofStatus.PROVEN →
        ob.proof_steps.length <
          (prove_derivative O function var expected_derivative ob).2.proof_steps.length) ∧
      (¬(prove_derivative O function var expected_derivative ob).2.status =
          ProofStatus.PROVEN →
        (prove_derivative O function var expected_derivative ob).2.proof_steps =
          ob.proof_steps) ∧
      ((prove_integral O integrand var bounds iexpected ob).2.status =
          ProofStatus.PROVEN →
        ob.proof_steps.length <
          (prove_integral O integrand var bounds iexpected ob).2.proof_steps.length) ∧
      (¬(prove_integral O integrand var bounds iexpected ob).2.status =
          ProofStatus.PROVEN →
        (prove_integral O integrand var bounds iexpected ob).2.proof_steps =
          ob.proof_steps) := by
  refine ⟨?_, ?_, ?_, ?_, ?_, ?_, ?_, ?_, ?_⟩
  · unfold prove_by_symbolic_simplification
    (repeat' split) <;> simp
  · unfold prove_by_mathematical_induction
    (repeat' split) <;> simp
  · unfold prove_limit
    (repeat' split) <;> simp
  · intro h
    unfold prove_by_contradiction
    rw [h]
    simp
  · intro h
    unfold prove_by_contradiction
    (repeat' split) <;> simp_all
  · intro h
    unfold prove_derivative at h ⊢
    (repeat' split) <;> simp_all
  · intro h
    unfold prove_derivative at h ⊢
    (repeat' split) <;> simp_all
  · intro h
    unfold prove_integral at h ⊢
    (repeat' split) <;> simp_all
  · intro h
    unfold prove_integral at h ⊢
    (repeat' split) <;> simp_all

/-- C3 amended witness: a predicate returning true logs entries, a refuted
derivative check logs nothing, a refuted definite integral check logs
nothing. -/
theorem strategy_logging_witness :
    ob34.proof_steps.length <
        (prove_by_contradiction (0 : Int) (fun _ => Except.ok true) numOracle
          ob34).2.proof_steps.length ∧
      (prove_derivative numOracle 1 0 3 ob34).2.proof_steps = ob34.proof_steps ∧
      (prove_integral numOracle 1 0 (some (0, 1)) 3 ob34).2.proof_steps =
        ob34.proof_steps := by
  have h := strategy_logging numOracle ob34 (Except.ok true) (Except.ok true) 0
    (fun _ => Except.ok true) 1 2 3 4 1 3 1 (some (0, 1)) 3
  exact ⟨h.2.2.2.2.1 (by simp), h.2.2.2.2.2.2.1 (by decide),
    h.2.2.2.2.2.2.2.2 (by decide)⟩

/-- `prove_by_symbolic_simplification` changes neither the hypothesis nor
the conclusion of the obligation it mutates. -/
theorem simplification_preserves_claim (O : Oracle E) (ob : ProofObligation E) :
    (prove_by_symbolic_simplification O ob).2.hypothesis = ob.hypothesis ∧
      (prove_by_symbolic_simplification O ob).2.conclusion = ob.conclusion := by
  unfold prove_by_symbolic_simplification
  (repeat' split) <;> simp

/-- The status assigned by `prove_by_symbolic_simplification` depends only
on the oracle and on the obligation's hypothesis and conclusion, not on
its prior status or log. -/
theorem simplification_status_congr (O : Oracle E) (ob ob' : ProofObligation E)
    (hh : ob'.hypothesis = ob.hypothesis) (hc : ob'.conclusion = ob.conclusion) :
    (prove_by_symbolic_simplification O ob').2.status =
      (prove_by_symbolic_simplification O ob).2.status := by
  unfold prove_by_symbolic_simplification
  rw [hh, hc]
  (repeat' split) <;> simp_all

/-- The status assigned by `prove_by_mathematical_induction` does not
depend on the obligation. -/
theorem induction_status_congr (base_case inductive_step : Except String Bool)
    (ob ob' : ProofObligation E) :
    (prove_by_mathematical_induction base_case inductive_step ob').2.status =
      (prove_by_mathematical_induction base_case inductive_step ob).2.status := by
  unfold prove_by_mathematical_induction
  (repeat' split) <;> simp_all

/-- The status assigned by `prove_by_contradiction` does not depend on the
obligation. -/
theorem contradiction_status_congr (assum : E) (pred : E → Except String Bool)
    (O : Oracle E) (ob ob' : ProofObligation E) :
    (prove_by_contradiction assum pred O ob').2.status =
      (prove_by_contradiction assum pred O ob).2.status := by
  unfold prove_by_contradiction
  (repeat' split) <;> simp_all

/-- The status assigned by `prove_limit` does not depend on the
obligation. -/
theorem limit_status_congr (O : Oracle E) (expression var limit_point expected_value : E)
    (ob ob' : ProofObligation E) :
    (prove_limit O expression var limit_point expected_value ob').2.status =
      (prove_limit O expression var limit_point expected_value ob).2.status := by
  unfold prove_limit
  (repeat' split) <;> simp_all

/-- The status assigned by `prove_derivative` does not depend on the
obligation. -/
theorem derivative_status_congr (O : Oracle E) (function var expected_derivative : E)
    (ob ob' : ProofObligation E) :
    (prove_derivative O function var expected_derivative ob').2.status =
      (prove_derivative O function var expected_derivative ob).2.status := by
  unfold prove_derivative
  (repeat' split) <;> simp_all

/-- The status assigned by `prove_integral` does not depend on the
obligation. -/
theorem integral_status_congr (O : Oracle E) (integrand var : E)
    (bounds : Option (E × E)) (iexpected : E) (ob ob' : ProofObligation E) :
    (prove_integral O integrand var bounds iexpected ob').2.status =
      (prove_integral O integrand var bounds iexpected ob).2.status := by
  unfold prove_integral
  (repeat' split) <;> simp_all

/-- C8: with a fixed (deterministic) oracle and unchanged inputs, running
the same strategy a second time on the obligation produced by the first
run assigns the same status as the first run, for each of the six entry
points. -/
theorem rerun_reproduces_status (O : Oracle E) (ob : ProofObligation E)
    (base_case inductive_step : Except String Bool)
    (assum : E) (pred : E → Except String Bool)
    (expression var limit_point expected_value : E)
    (function expected_derivative integrand : E) (bounds : Option (E × E))
    (iexpected : E) :
    (prove_by_symbolic_simplification O
          (prove_by_symbolic_simplification O ob).2).2.status =
        (prove_by_symbolic_simplification O ob).2.status ∧
      (prove_by_mathematical_induction base_case inductive_step
          (prove_by_mathematical_induction base_case inductive_step ob).2).2.status =
        (prove_by_mathematical_induction base_case inductive_step ob).2.status ∧
      (prove_by_contradiction assum pred O
          (prove_by_contradiction assum pred O ob).2).2.status =
        (prove_by_contradiction assum pred O ob).2.status ∧
      (prove_limit O expression var limit_point expected_value
          (prove_limit O expression var limit_point expected_value ob).2).2.status =
        (prove_limit O expression var limit_point expected_value ob).2.status ∧
      (prove_derivative O function var expected_derivative
          (prove_derivative O function var expected_derivative ob).2).2.status =
        (prove_derivative O function var expected_derivative ob).2.status ∧
      (prove_integral O integrand var bounds iexpected
          (prove_integral O integrand var bounds iexpected ob).2).2.status =
        (prove_integral O integrand var bounds iexpected ob).2.status := by
  refine ⟨?_, ?_, ?_, ?_, ?_, ?_⟩
  · exact simplification_status_congr O ob _
      (simplification_preserves_claim O ob).1
      (simplification_preserves_claim O ob).2
  · exact induction_status_congr base_case inductive_step ob _
  · exact contradiction_status_congr assum pred O ob _
  · exact limit_status_congr O expression var limit_point expected_value ob _
  · exact derivative_status_congr O function var expected_derivative ob _
  · exact integral_status_congr O integrand var bounds iexpected ob _

end BlackRoad
